import Mathlib

/-!
Verification of the gainers/losers ranking, mover construction, trend
classification and upload handling of the stock-market dashboard script
(`src/app.py`).

Modelling conventions (shallow embedding):
* Prices and percentages are rationals (`ℚ`); a float result that is not a
  finite number (the `NaN` produced when the opening price is zero and the
  change is undefined) is modelled as `none` in an `Option ℚ`.
* `pandas.sort_values(by='Change (%)', ascending=False)` with its default
  `kind='quicksort'` guarantees only that the result is SOME permutation of
  the rows that is non-increasing in the key — quicksort is not stable, so
  the relative order of rows with equal change is implementation-defined.
  That contract is captured relationally by `IsDescSortOf`; theorems whose
  truth could depend on the tie order are stated against `IsDescSortOf`
  (quantifying over every admissible sort result).  `sortMovers` is one
  admissible deterministic resolution of the contract, used by the theorems
  whose statements are insensitive to the tie order.
* `DataFrame.head(n)` is `List.take n`, `DataFrame.tail(n)` is
  `List.drop (length - n)`, which agrees with pandas also when the frame has
  fewer than `n` rows.
-/

/-- One row of the per-symbol price history returned by the data fetch
(`yf.download`): the `Open`, `High`, `Low`, `Close`, `Volume` columns. -/
structure PricePoint where
  Open : ℚ
  High : ℚ
  Low : ℚ
  Close : ℚ
  Volume : ℚ
deriving DecidableEq, Repr

/-- `percent_change = ((close_price - open_price) / open_price) * 100`
(src/app.py line 66). -/
def percentChange (openPrice closePrice : ℚ) : ℚ :=
  (closePrice - openPrice) / openPrice * 100

/-- A row of the `gainers_losers` list before the `to_numeric`/`dropna` step:
`{'Symbol': symbol, 'Change (%)': percent_change}` (src/app.py line 67).
`change = none` models a non-finite float `percent_change` (NaN). -/
structure RawMover where
  symbol : String
  change : Option ℚ
deriving DecidableEq, Repr

/-- A row of the ranked frame after `dropna`: a defined numeric change. -/
structure Mover where
  symbol : String
  change : ℚ
deriving DecidableEq, Repr

/-- The per-symbol body of the loop at src/app.py lines 61-67: an empty
series contributes nothing (`if not stock_data.empty`); otherwise the record
uses the first row's `Open` and the last row's `Close`
(`stock_data.iloc[0]['Open']`, `stock_data.iloc[-1]['Close']`).  A zero
opening price makes the float division non-finite, modelled as `none`. -/
def moverOfSeries (sym : String) (s : List PricePoint) : Option RawMover :=
  match s with
  | [] => none
  | p :: rest =>
      some ⟨sym,
        if p.Open = 0 then none
        else some (percentChange p.Open (((p :: rest).getLast (List.cons_ne_nil p rest)).Close))⟩

/-- The whole fetch loop of src/app.py lines 61-67 over an association list
`symbol ↦ fetched series` (the insertion-ordered `data` dict). -/
def buildMovers (data : List (String × List PricePoint)) : List RawMover :=
  data.filterMap fun sd => moverOfSeries sd.1 sd.2

/-- `pd.to_numeric(..., errors='coerce')` followed by
`dropna(subset=['Change (%)'])` (src/app.py lines 73-76): rows whose change
is not a number are removed, the rest keep their order. -/
def dropNaN (l : List RawMover) : List Mover :=
  l.filterMap fun r => r.change.map fun c => ⟨r.symbol, c⟩

/-- The sort order of src/app.py line 79: descending in `Change (%)`.
`moverDescLE a b` says `a` may come before `b`. -/
def moverDescLE (a b : Mover) : Prop := b.change ≤ a.change

instance : DecidableRel moverDescLE :=
  fun a b => inferInstanceAs (Decidable (b.change ≤ a.change))

instance : IsTotal Mover moverDescLE := ⟨fun a b => le_total b.change a.change⟩

instance : IsTrans Mover moverDescLE := ⟨fun _ _ _ h1 h2 => le_trans h2 h1⟩

/-- One admissible result of
`df_gainers_losers.sort_values(by='Change (%)', ascending=False)`
(src/app.py line 79): a descending sort of the rows.  The default
`kind='quicksort'` fixes no particular tie order, so nothing beyond
`IsDescSortOf` below may be assumed about this function; it is used only
where the tie order is irrelevant. -/
def sortMovers (l : List Mover) : List Mover :=
  l.insertionSort moverDescLE

/-- The full guarantee of `sort_values(by='Change (%)', ascending=False)`
with the default `kind='quicksort'` (src/app.py line 79): `out` is a
permutation of the input rows that is non-increasing in `Change (%)`.
pandas documents only `kind='mergesort'`/`'stable'` as stable, so the
order of rows with equal change is implementation-defined and every
`out` satisfying this contract is an admissible result. -/
def IsDescSortOf (out l : List Mover) : Prop :=
  List.Perm out l ∧ out.Pairwise fun a b => b.change ≤ a.change

instance (out l : List Mover) : Decidable (IsDescSortOf out l) :=
  inferInstanceAs (Decidable (_ ∧ _))

/-- Sort followed by `head(n)` and `tail(n)` (src/app.py lines 79-85) with
the slice size `n` as a parameter; the script fixes `n = 5`. -/
def rankMovers (n : ℕ) (l : List Mover) : List Mover × List Mover :=
  let s := sortMovers l
  (s.take n, s.drop (s.length - n))

/-- `get_top_gainers_losers` from the computed raw records onward
(src/app.py lines 70-85): coerce/drop NaN rows, sort descending, return
`(top_5_gainers, top_5_losers) = (head(5), tail(5))`. -/
def get_top_gainers_losers (raws : List RawMover) : List Mover × List Mover :=
  rankMovers 5 (dropNaN raws)

/-- The trend-classification outcome: all-conditions-hold or not. -/
inductive Trend where
  | Upward : Trend
  | NotUpward : Trend
deriving DecidableEq, Repr

/-- A fully populated indicator row: close price plus the derived fields. -/
structure IndicatorRow where
  close : ℚ
  ema20 : ℚ
  rsi : ℚ
  macd : ℚ
  bb_upper : ℚ
  bb_lower : ℚ
deriving DecidableEq, Repr

/-- Modelled from the spec: the trend classifier (spec §4.1) is not present
in `src/app.py` (the script in `src/` contains no indicator computation or
trend rule); the spec attributes it to near-duplicate scripts of the
repository.  Rule, conjunctive, in spec order: `macd > 0`, `rsi > 50`,
`close >= bb_upper * K` (`K` the configurable tolerance factor), and
`close > ema20`; `Upward` only if all four hold. -/
def classify (K : ℚ) (r : IndicatorRow) : Trend :=
  if 0 < r.macd ∧ 50 < r.rsi ∧ r.bb_upper * K ≤ r.close ∧ r.ema20 < r.close then
    Trend.Upward
  else
    Trend.NotUpward

/-- What the rendered page shows, for the three parts of the script that the
upload claim is about: the manual-ticker chart section (src/app.py lines
178-206), the upload error message (line 221), and the portfolio
overview/charts (lines 226-241). -/
structure Page where
  tickerChartRendered : Bool
  uploadErrorShown : Bool
  portfolioRendered : Bool
deriving DecidableEq, Repr

/-- Top-level flow of the script around the upload feature, in source
order: the ticker chart renders first (lines 178-206, when the fetched data
is nonempty); then, when a file is uploaded (modelled by its list of column
names), the `'Symbol' not in portfolio.columns` check (line 220) either
lets the portfolio sections render or shows the error and calls
`st.stop()` (lines 221-222), which aborts only the remaining (portfolio)
part of the run. -/
def runDashboard (tickerHasData : Bool) (upload : Option (List String)) : Page :=
  let tickerChartRendered := tickerHasData
  match upload with
  | none => ⟨tickerChartRendered, false, false⟩
  | some cols =>
      if "Symbol" ∈ cols then ⟨tickerChartRendered, false, true⟩
      else ⟨tickerChartRendered, true, false⟩

/-! ## Helper lemmas about the descending sort -/

/-- The sorted frame is pairwise non-increasing in `Change (%)`. -/
theorem sortMovers_sorted (l : List Mover) : (sortMovers l).Pairwise moverDescLE :=
  List.sorted_insertionSort moverDescLE l

/-- Sorting permutes the rows. -/
theorem sortMovers_perm (l : List Mover) : List.Perm (sortMovers l) l :=
  List.perm_insertionSort moverDescLE l

/-- `sortMovers` is one admissible result of the sort contract. -/
theorem sortMovers_isDescSortOf (l : List Mover) : IsDescSortOf (sortMovers l) l :=
  ⟨sortMovers_perm l, sortMovers_sorted l⟩

/-- When no two rows carry the same change value, a descending sort of a
list is unique: any two sorted permutations of it are equal.  This is the
part of the sort result that is determined independently of the
(implementation-defined) tie order of quicksort. -/
theorem descSort_unique : ∀ {l₁ l₂ : List Mover}, List.Perm l₁ l₂ →
    l₁.Pairwise moverDescLE → l₂.Pairwise moverDescLE →
    (l₁.map Mover.change).Nodup → l₁ = l₂
  | [], l₂, hp, _, _, _ => hp.nil_eq
  | a :: t₁, [], hp, _, _, _ => absurd hp.symm.nil_eq (by simp)
  | a :: t₁, b :: t₂, hp, h₁, h₂, hnd => by
    have hmap : ((a :: t₁).map Mover.change).Nodup := hnd
    simp only [List.map_cons, List.nodup_cons] at hmap
    have hab : a = b := by
      have ha : a ∈ b :: t₂ := hp.subset (List.mem_cons_self a t₁)
      rcases List.mem_cons.mp ha with h | ha'
      · exact h
      · have hba : a.change ≤ b.change := (List.pairwise_cons.mp h₂).1 a ha'
        have hb : b ∈ a :: t₁ := hp.symm.subset (List.mem_cons_self b t₂)
        rcases List.mem_cons.mp hb with h | hb'
        · exact h.symm
        · have hab' : b.change ≤ a.change := (List.pairwise_cons.mp h₁).1 b hb'
          exact absurd (List.mem_map.mpr ⟨b, hb', le_antisymm hab' hba⟩) hmap.1
    subst hab
    have ht : t₁ = t₂ :=
      descSort_unique hp.cons_inv (List.pairwise_cons.mp h₁).2
        (List.pairwise_cons.mp h₂).2 hmap.2
    rw [ht]

/-! ## Claims -/

/-- C1 (counterexample): the claim "`topLosers` is non-decreasing in
`changePercent`" is false for the code: `tail(5)` of the descending sort
keeps the descending order.  With records A(+5%) and B(-3%) the losers
sequence is `[A(+5%), B(-3%)]`, which is not non-decreasing. -/
theorem C1_counterexample :
    ¬ ((get_top_gainers_losers [⟨"A", some 5⟩, ⟨"B", some (-3)⟩]).2.Pairwise
        fun a b => a.change ≤ b.change) := by
  decide

/-- C1 (amended): for every input and every slice size, `topGainers` is
non-increasing in `changePercent`, and `topLosers` is likewise
NON-INCREASING (it is the unreversed tail of the same descending sort), not
non-decreasing as claimed. -/
theorem C1_amended_monotone (n : ℕ) (l : List Mover) :
    ((rankMovers n l).1.Pairwise fun a b => b.change ≤ a.change) ∧
    ((rankMovers n l).2.Pairwise fun a b => b.change ≤ a.change) := by
  have hs : (sortMovers l).Pairwise moverDescLE := sortMovers_sorted l
  simp only [rankMovers]
  exact ⟨List.Pairwise.sublist (List.take_sublist _ _) hs,
         List.Pairwise.sublist (List.drop_sublist _ _) hs⟩

/-- C2 (counterexample): on the records
`[(A,+5%),(B,-3%),(C,+1%),(D,-8%),(E,0%)]` with slice size 2 the code does
not return `topLosers = [D(-8%), B(-3%)]`: the tail of the descending sort
lists the losers largest-change-first. -/
theorem C2_counterexample :
    rankMovers 2 [⟨"A", 5⟩, ⟨"B", -3⟩, ⟨"C", 1⟩, ⟨"D", -8⟩, ⟨"E", 0⟩] ≠
      ([⟨"A", 5⟩, ⟨"C", 1⟩], [⟨"D", -8⟩, ⟨"B", -3⟩]) := by
  decide

/-- C2 (amended): on `[(A,+5%),(B,-3%),(C,+1%),(D,-8%),(E,0%)]` with slice
size 2 the ranking returns `topGainers = [A(+5%), C(+1%)]` and
`topLosers = [B(-3%), D(-8%)]`, i.e. the losers are listed largest
`changePercent` first. -/
theorem C2_amended_value :
    rankMovers 2 [⟨"A", 5⟩, ⟨"B", -3⟩, ⟨"C", 1⟩, ⟨"D", -8⟩, ⟨"E", 0⟩] =
      ([⟨"A", 5⟩, ⟨"C", 1⟩], [⟨"B", -3⟩, ⟨"D", -8⟩]) := by
  decide

/-- C3: `classify` returns `Upward` exactly when all four conditions
(`macd > 0`, `rsi > 50`, `close ≥ bb_upper * K`, `close > ema20`) hold, and
returns `NotUpward` exactly when at least one of them fails — in
particular whenever any single one is false. -/
theorem C3_classify_iff (K : ℚ) (r : IndicatorRow) :
    (classify K r = Trend.Upward ↔
      (0 < r.macd ∧ 50 < r.rsi ∧ r.bb_upper * K ≤ r.close ∧ r.ema20 < r.close)) ∧
    (classify K r = Trend.NotUpward ↔
      (¬ 0 < r.macd ∨ ¬ 50 < r.rsi ∨ ¬ r.bb_upper * K ≤ r.close ∨ ¬ r.ema20 < r.close)) := by
  unfold classify
  by_cases h : (0 < r.macd ∧ 50 < r.rsi ∧ r.bb_upper * K ≤ r.close ∧ r.ema20 < r.close)
  · rw [if_pos h]
    obtain ⟨h1, h2, h3, h4⟩ := h
    refine ⟨⟨fun _ => ⟨h1, h2, h3, h4⟩, fun _ => rfl⟩, ?_, ?_⟩
    · intro hc
      exact absurd hc (by decide)
    · intro hc
      rcases hc with hc | hc | hc | hc <;> exact absurd (by assumption) hc
  · rw [if_neg h]
    refine ⟨⟨fun hc => absurd hc (by decide), fun hc => absurd hc h⟩, fun _ => ?_, fun _ => rfl⟩
    tauto

/-- C4 (counterexample): on the input `[B(+1%), A(+1%)]` NO output sequence
at all satisfies the claim's description of the sort: being a stable
descending sort (a descending permutation in which rows of equal change
keep their input order, here forcing `[B, A]`) contradicts breaking the tie
by lexical symbol order (forcing `A` before `B`).  The claim is therefore
false of the code whatever tie order its unstable quicksort produces. -/
theorem C4_counterexample :
    ¬ ∃ out : List Mover,
      (IsDescSortOf out [⟨"B", 1⟩, ⟨"A", 1⟩] ∧
       ∀ q : ℚ, out.filter (fun m => m.change = q) =
         ([⟨"B", 1⟩, ⟨"A", 1⟩] : List Mover).filter (fun m => m.change = q)) ∧
      out.Pairwise fun a b =>
        b.change < a.change ∨ (a.change = b.change ∧ a.symbol ≤ b.symbol) := by
  rintro ⟨out, ⟨⟨hperm, _⟩, hstable⟩, hlex⟩
  have hall : ∀ m ∈ out, m.change = 1 := by
    intro m hm
    have hm' : m ∈ ([⟨"B", 1⟩, ⟨"A", 1⟩] : List Mover) := hperm.subset hm
    simp only [List.mem_cons, List.not_mem_nil, or_false] at hm'
    rcases hm' with rfl | rfl <;> rfl
  have hout : out = [⟨"B", 1⟩, ⟨"A", 1⟩] := by
    have h1 := hstable 1
    rwa [List.filter_eq_self.mpr fun m hm => by simp [hall m hm],
      show ([⟨"B", 1⟩, ⟨"A", 1⟩] : List Mover).filter (fun m => m.change = (1 : ℚ)) =
        [⟨"B", 1⟩, ⟨"A", 1⟩] by decide] at h1
  rw [hout] at hlex
  have hrel := (List.pairwise_cons.mp hlex).1 ⟨"A", 1⟩ (by simp)
  rcases hrel with h | ⟨_, h⟩
  · exact absurd h (by norm_num)
  · exact absurd h (by rw [String.le_iff_toList_le]; decide)

/-- C4 (amended): the ranking sorts by `changePercent` descending — the
output is a permutation of the input that is non-increasing in
`changePercent` — but the default quicksort guarantees no tie rule, neither
input-order stability nor symbol order (the two are in fact contradictory);
the output order is determined by the input exactly when the
`changePercent` values are pairwise distinct, in which case every
admissible sort result is the same sequence. -/
theorem C4_amended_unique (l out₁ out₂ : List Mover)
    (hnd : (l.map Mover.change).Nodup)
    (h₁ : IsDescSortOf out₁ l) (h₂ : IsDescSortOf out₂ l) :
    out₁ = out₂ := by
  have hnd₁ : (out₁.map Mover.change).Nodup := ((h₁.1.map Mover.change).nodup_iff).mpr hnd
  exact descSort_unique (h₁.1.trans h₂.1.symm) h₁.2 h₂.2 hnd₁

/-- Witness for C4 (amended): with distinct changes, the admissible sort
result of `[B(+1%), A(+2%)]` is uniquely `[A(+2%), B(+1%)]`. -/
theorem C4_amended_unique_witness :
    ((([⟨"B", 1⟩, ⟨"A", 2⟩] : List Mover).map Mover.change).Nodup) ∧
    IsDescSortOf (sortMovers [⟨"B", 1⟩, ⟨"A", 2⟩]) [⟨"B", 1⟩, ⟨"A", 2⟩] ∧
    IsDescSortOf [⟨"A", 2⟩, ⟨"B", 1⟩] [⟨"B", 1⟩, ⟨"A", 2⟩] ∧
    sortMovers [⟨"B", 1⟩, ⟨"A", 2⟩] = [⟨"A", 2⟩, ⟨"B", 1⟩] := by
  refine ⟨by decide, sortMovers_isDescSortOf _,
    (by decide : IsDescSortOf [⟨"A", 2⟩, ⟨"B", 1⟩] [⟨"B", 1⟩, ⟨"A", 2⟩]), ?_⟩
  exact C4_amended_unique [⟨"B", 1⟩, ⟨"A", 2⟩] (sortMovers [⟨"B", 1⟩, ⟨"A", 2⟩])
    [⟨"A", 2⟩, ⟨"B", 1⟩] (by decide) (sortMovers_isDescSortOf _) (by decide)

/-- C5 (counterexample): `changePercent` is not derived from the last two
PricePoints.  Two three-point series with identical last two points but
different first points get different `changePercent` values, because the
code uses the FIRST row's `Open` (src/app.py line 64). -/
theorem C5_counterexample :
    (([⟨100, 0, 0, 110, 0⟩, ⟨110, 0, 0, 120, 0⟩, ⟨120, 0, 0, 150, 0⟩] : List PricePoint).drop 1 =
      ([⟨50, 0, 0, 60, 0⟩, ⟨110, 0, 0, 120, 0⟩, ⟨120, 0, 0, 150, 0⟩] : List PricePoint).drop 1) ∧
    moverOfSeries "X" [⟨100, 0, 0, 110, 0⟩, ⟨110, 0, 0, 120, 0⟩, ⟨120, 0, 0, 150, 0⟩] ≠
      moverOfSeries "X" [⟨50, 0, 0, 60, 0⟩, ⟨110, 0, 0, 120, 0⟩, ⟨120, 0, 0, 150, 0⟩] := by
  refine ⟨by decide, ?_⟩
  simp only [moverOfSeries, percentChange]
  norm_num [List.getLast]

/-- C5 (amended): a symbol's `changePercent` is derived from the FIRST
PricePoint's open and the LAST PricePoint's close of its series: the
produced record depends on nothing else of the series. -/
theorem C5_amended_change_source (sym : String) (s t : List PricePoint)
    (hs : s ≠ []) (ht : t ≠ [])
    (hOpen : (s.head hs).Open = (t.head ht).Open)
    (hClose : (s.getLast hs).Close = (t.getLast ht).Close) :
    moverOfSeries sym s = moverOfSeries sym t := by
  cases s with
  | nil => exact absurd rfl hs
  | cons p ps =>
    cases t with
    | nil => exact absurd rfl ht
    | cons r rs =>
      simp only [List.head_cons] at hOpen
      simp only [moverOfSeries, hOpen, hClose]

/-- Witness for C5 (amended): a one-point series and a two-point series
with the same first open and last close produce the same record. -/
theorem C5_amended_change_source_witness :
    moverOfSeries "X" [⟨1, 0, 0, 2, 0⟩] =
      moverOfSeries "X" [⟨1, 0, 0, 3, 0⟩, ⟨4, 0, 0, 2, 0⟩] :=
  C5_amended_change_source "X" _ _ (by decide) (by decide) (by decide) (by decide)

/-- C6 (counterexample): a series with exactly one PricePoint DOES produce
a MoverRecord — the emptiness check at src/app.py line 62 only excludes
empty series. -/
theorem C6_counterexample :
    moverOfSeries "X" [⟨100, 0, 0, 110, 0⟩] ≠ none ∧
    buildMovers [("X", [⟨100, 0, 0, 110, 0⟩])] ≠ [] := by
  constructor <;> decide

/-- C6 (amended): only an empty series yields no MoverRecord; a one-point
series yields a record whose `changePercent` is computed from that single
point's own open and close. -/
theorem C6_amended_single_point (sym : String) (p : PricePoint) :
    moverOfSeries sym [p] =
      some ⟨sym, if p.Open = 0 then none else some (percentChange p.Open p.Close)⟩ ∧
    moverOfSeries sym [] = none :=
  ⟨rfl, rfl⟩

/-- C7 (counterexample): order preservation is NOT guaranteed for a sorted
input containing ties.  `[B(+1%), A(+1%)]` is sorted descending, yet
`[A(+1%), B(+1%)]` is also an admissible result of the code's sort
(`IsDescSortOf`: a descending permutation, all that unstable quicksort
guarantees) and differs from the input, so re-ranking need not yield the
input order. -/
theorem C7_counterexample :
    (([⟨"B", 1⟩, ⟨"A", 1⟩] : List Mover).Pairwise moverDescLE) ∧
    IsDescSortOf [⟨"A", 1⟩, ⟨"B", 1⟩] [⟨"B", 1⟩, ⟨"A", 1⟩] ∧
    ([⟨"A", 1⟩, ⟨"B", 1⟩] : List Mover) ≠ [⟨"B", 1⟩, ⟨"A", 1⟩] := by
  refine ⟨by decide, ⟨?_, by decide⟩, by decide⟩
  exact List.Perm.swap (⟨"B", 1⟩ : Mover) (⟨"A", 1⟩ : Mover) []

/-- C7 (amended): on an input sorted STRICTLY descending by `changePercent`
(no tied values) the ranking is idempotent: every admissible sort result
equals the input, so the ranking returns the first `n` and last `n`
records in their input order; with ties the quicksort contract does not
guarantee the input order. -/
theorem C7_amended_strict (n : ℕ) (l out : List Mover)
    (hsort : l.Pairwise fun a b => b.change < a.change)
    (h : IsDescSortOf out l) :
    out = l ∧ rankMovers n l = (l.take n, l.drop (l.length - n)) := by
  have hweak : l.Pairwise moverDescLE := hsort.imp fun hab => le_of_lt hab
  have hnd : (l.map Mover.change).Nodup :=
    List.pairwise_map.mpr (hsort.imp fun hab => ne_of_gt hab)
  have hout : out = l :=
    descSort_unique h.1 h.2 hweak (((h.1.map Mover.change).nodup_iff).mpr hnd)
  have hself : sortMovers l = l :=
    descSort_unique (sortMovers_perm l) (sortMovers_sorted l) hweak
      (((sortMovers_perm l).map Mover.change).nodup_iff.mpr hnd)
  exact ⟨hout, by simp [rankMovers, hself]⟩

/-- Witness for C7 on a concrete strictly-descending input. -/
theorem C7_amended_strict_witness :
    (([⟨"A", 5⟩, ⟨"B", 3⟩, ⟨"C", 1⟩] : List Mover).Pairwise
      fun a b => b.change < a.change) ∧
    IsDescSortOf [⟨"A", 5⟩, ⟨"B", 3⟩, ⟨"C", 1⟩] [⟨"A", 5⟩, ⟨"B", 3⟩, ⟨"C", 1⟩] ∧
    ([⟨"A", 5⟩, ⟨"B", 3⟩, ⟨"C", 1⟩] : List Mover) = [⟨"A", 5⟩, ⟨"B", 3⟩, ⟨"C", 1⟩] ∧
    rankMovers 2 [⟨"A", 5⟩, ⟨"B", 3⟩, ⟨"C", 1⟩] =
      (([⟨"A", 5⟩, ⟨"B", 3⟩, ⟨"C", 1⟩] : List Mover).take 2,
       ([⟨"A", 5⟩, ⟨"B", 3⟩, ⟨"C", 1⟩] : List Mover).drop
         (([⟨"A", 5⟩, ⟨"B", 3⟩, ⟨"C", 1⟩] : List Mover).length - 2)) :=
  ⟨by decide, by decide,
   (C7_amended_strict 2 [⟨"A", 5⟩, ⟨"B", 3⟩, ⟨"C", 1⟩] [⟨"A", 5⟩, ⟨"B", 3⟩, ⟨"C", 1⟩]
     (by decide) (by decide)).1,
   (C7_amended_strict 2 [⟨"A", 5⟩, ⟨"B", 3⟩, ⟨"C", 1⟩] [⟨"A", 5⟩, ⟨"B", 3⟩, ⟨"C", 1⟩]
     (by decide) (by decide)).2⟩

/-- C8: with pairwise-distinct records (one per symbol) and at least
`2N = 10` of them, the `head(5)` and `tail(5)` slices of the sorted frame
are disjoint: no record is both a top gainer and a top loser. -/
theorem C8_disjoint (l : List Mover) (hl : l.Nodup) (hlen : 10 ≤ l.length) :
    List.Disjoint (rankMovers 5 l).1 (rankMovers 5 l).2 := by
  have hperm := sortMovers_perm l
  have hnd : (sortMovers l).Nodup := hperm.nodup_iff.mpr hl
  have hlen' : 10 ≤ (sortMovers l).length := by rw [hperm.length_eq]; exact hlen
  have h5 : 5 ≤ (sortMovers l).length - 5 := by omega
  simpa [rankMovers] using List.disjoint_take_drop hnd h5

/-- Witness for C8 on ten distinct records. -/
theorem C8_disjoint_witness :
    (([⟨"A", 10⟩, ⟨"B", 9⟩, ⟨"C", 8⟩, ⟨"D", 7⟩, ⟨"E", 6⟩,
       ⟨"F", 5⟩, ⟨"G", 4⟩, ⟨"H", 3⟩, ⟨"I", 2⟩, ⟨"J", 1⟩] : List Mover).Nodup) ∧
    10 ≤ ([⟨"A", 10⟩, ⟨"B", 9⟩, ⟨"C", 8⟩, ⟨"D", 7⟩, ⟨"E", 6⟩,
       ⟨"F", 5⟩, ⟨"G", 4⟩, ⟨"H", 3⟩, ⟨"I", 2⟩, ⟨"J", 1⟩] : List Mover).length ∧
    List.Disjoint
      (rankMovers 5 [⟨"A", 10⟩, ⟨"B", 9⟩, ⟨"C", 8⟩, ⟨"D", 7⟩, ⟨"E", 6⟩,
       ⟨"F", 5⟩, ⟨"G", 4⟩, ⟨"H", 3⟩, ⟨"I", 2⟩, ⟨"J", 1⟩]).1
      (rankMovers 5 [⟨"A", 10⟩, ⟨"B", 9⟩, ⟨"C", 8⟩, ⟨"D", 7⟩, ⟨"E", 6⟩,
       ⟨"F", 5⟩, ⟨"G", 4⟩, ⟨"H", 3⟩, ⟨"I", 2⟩, ⟨"J", 1⟩]).2 :=
  ⟨by decide, by decide, C8_disjoint _ (by decide) (by decide)⟩

/-- C9: an uploaded portfolio without a `Symbol` column surfaces the
malformed-upload error and aborts only the portfolio section; the ticker
chart, rendered earlier in the script, shows exactly as it would with no
upload at all. -/
theorem C9_malformed_upload (t : Bool) (cols : List String) (h : "Symbol" ∉ cols) :
    runDashboard t (some cols) = ⟨t, true, false⟩ ∧
    (runDashboard t (some cols)).tickerChartRendered =
      (runDashboard t none).tickerChartRendered := by
  simp [runDashboard, h]

/-- Witness for C9: an upload with columns `Name, Qty` only. -/
theorem C9_malformed_upload_witness :
    ("Symbol" ∉ (["Name", "Qty"] : List String)) ∧
    (runDashboard true (some ["Name", "Qty"]) = ⟨true, true, false⟩ ∧
     (runDashboard true (some ["Name", "Qty"])).tickerChartRendered =
       (runDashboard true none).tickerChartRendered) :=
  ⟨by decide, C9_malformed_upload true _ (by decide)⟩

/-- C10: every record in either output of `get_top_gainers_losers` stems
from a raw row whose change is a defined number (`some`): rows whose change
is NaN (`none`) are dropped before sorting and never reach the outputs. -/
theorem C10_no_nan_output (raws : List RawMover) (m : Mover)
    (h : m ∈ (get_top_gainers_losers raws).1 ∨ m ∈ (get_top_gainers_losers raws).2) :
    ∃ r ∈ raws, r.symbol = m.symbol ∧ r.change = some m.change := by
  simp only [get_top_gainers_losers, rankMovers] at h
  have hm : m ∈ sortMovers (dropNaN raws) := by
    rcases h with h | h
    · exact List.mem_of_mem_take h
    · exact List.mem_of_mem_drop h
  rw [sortMovers, List.mem_insertionSort] at hm
  rw [dropNaN, List.mem_filterMap] at hm
  obtain ⟨r, hr, heq⟩ := hm
  obtain ⟨c, hc, hcm⟩ := Option.map_eq_some'.mp heq
  subst hcm
  exact ⟨r, hr, rfl, hc⟩

/-- Witness for C10: with one numeric row and one NaN row, the numeric row
is a top gainer and stems from a `some`-change raw row. -/
theorem C10_no_nan_output_witness :
    ((⟨"A", 5⟩ : Mover) ∈ (get_top_gainers_losers [⟨"A", some 5⟩, ⟨"B", none⟩]).1 ∨
     (⟨"A", 5⟩ : Mover) ∈ (get_top_gainers_losers [⟨"A", some 5⟩, ⟨"B", none⟩]).2) ∧
    ∃ r ∈ ([⟨"A", some 5⟩, ⟨"B", none⟩] : List RawMover),
      r.symbol = (⟨"A", 5⟩ : Mover).symbol ∧ r.change = some (⟨"A", 5⟩ : Mover).change :=
  ⟨Or.inl (by decide), C10_no_nan_output _ _ (Or.inl (by decide))⟩

